import Mathlib

/- Verification of the DeltaDeck option-spread analyzer repository.

The staged sources hold the React frontend (the axios service layer and its
retry wrapper, the recommendations table and cards, the App component) and
the deployment material. The backend core named by the spec
(backend/spreads.py, backend/angel_api.py, backend/main.py) is not among the
staged files; definitions for that part are modelled from the spec and each
such definition says so in its doc comment. Prices, premiums, deltas and
volumes are embedded as rationals. -/

namespace DeltaDeck

/-- Spread kind of a recommendation: the spec's BULL_CALL / BEAR_PUT, the
"Bull Call Spread" / "Bear Put Spread" strings of the JSON payload. -/
inductive SpreadKind
  | bullCall
  | bearPut
deriving DecidableEq, Repr

/-- Option side of a contract: the spec's CALL / PUT option type. -/
inductive OptionSide
  | call
  | put
deriving DecidableEq, Repr

/-- Modelled from the spec: the OptionContract entity of spec section 3
(backend normalizer output; the backend sources are not staged). Only the
fields the analyzer reads are kept: strike, side, premium, delta, volume. -/
structure OptionContract where
  strike : ℚ
  side : OptionSide
  premium : ℚ
  delta : ℚ
  volume : ℚ
deriving DecidableEq, Repr

/-- The SpreadRecommendation record, with the fields the spec's data model
lists and the frontend components read (RecommendationsTable.jsx and
SpreadCards read buy_strike, sell_strike, buy_delta, sell_delta,
delta_difference, net_premium, max_profit, max_loss, breakeven,
profit_per_100_up, profit_per_100_down, risk_reward_ratio, total_volume,
probability_profit). -/
structure SpreadRecommendation where
  kind : SpreadKind
  buy_strike : ℚ
  sell_strike : ℚ
  buy_premium : ℚ
  sell_premium : ℚ
  buy_delta : ℚ
  sell_delta : ℚ
  delta_difference : ℚ
  net_premium : ℚ
  max_profit : ℚ
  max_loss : ℚ
  breakeven : ℚ
  profit_per_100_up : ℚ
  profit_per_100_down : ℚ
  risk_reward_ratio : ℚ
  total_volume : ℚ
  probability_profit : ℚ
deriving DecidableEq, Repr

/-! Frontend service layer (apiService in the staged App-simple.jsx bundle). -/

/-- JavaScript String.prototype.toUpperCase as the service layer uses it on
ASCII symbol names: uppercase every character. -/
def jsToUpperCase (s : String) : String :=
  ⟨s.data.map Char.toUpper⟩

/-- Body of the POST /api/recommendations request that
apiService.fetchRecommendations builds. -/
structure RecommendationsRequest where
  symbol : String
  strikes_range : Nat
deriving DecidableEq, Repr

/-- apiService.fetchRecommendations(symbol = 'NIFTY', strikesRange = 6):
an absent argument takes the JS default parameter, and the symbol is sent
uppercased. -/
def fetchRecommendationsRequest (symbol : Option String) (strikesRange : Option Nat) :
    RecommendationsRequest :=
  { symbol := jsToUpperCase (symbol.getD "NIFTY"),
    strikes_range := strikesRange.getD 6 }

/-- apiService.fetchQuickRecommendations(symbol = 'NIFTY'): the GET URL is
built from the uppercased symbol. -/
def fetchQuickRecommendationsUrl (symbol : Option String) : String :=
  "/api/recommendations/" ++ jsToUpperCase (symbol.getD "NIFTY")

/-- Query parameters of the GET /api/chart-data request that
apiService.fetchChartData builds. -/
structure ChartDataParams where
  symbol : String
  interval : String
  from_date : Option String
  to_date : Option String
deriving DecidableEq, Repr

/-- apiService.fetchChartData(symbol = 'NIFTY', interval = 'ONE_MINUTE',
fromDate = null, toDate = null): the symbol is sent uppercased, date
parameters are attached only when present. -/
def fetchChartDataParams (symbol : Option String) (interval : Option String)
    (fromDate toDate : Option String) : ChartDataParams :=
  { symbol := jsToUpperCase (symbol.getD "NIFTY"),
    interval := interval.getD "ONE_MINUTE",
    from_date := fromDate,
    to_date := toDate }

/-- Shape of an axios failure as the response interceptor inspects it:
either the server responded with an error status (carrying optional
data.message / data.detail), or the request got no response at all, or
something else happened. -/
inductive AxiosFailure
  | response (status : Nat) (message detail : Option String)
  | request
  | other (message : Option String)
deriving DecidableEq, Repr

/-- The response interceptor of the api instance: maps each failure shape to
the message of the Error it throws. -/
def interceptError : AxiosFailure → String
  | .response status message detail =>
      ((message.orElse fun _ => detail).getD ("Server error: " ++ toString status))
  | .request => "Network error: Unable to connect to server"
  | .other message => message.getD "Unknown error occurred"

/-- Loop body of retryRequest: attempt is the 1-based attempt counter,
remaining counts the attempts still allowed after this one
(maxRetries - attempt), delay the current backoff. Besides the final result
it records the list of waits performed, in order. A failed non-final attempt
waits the current delay and doubles it for the next round. -/
def retryAux {E A : Type} (f : Nat → Except E A) :
    Nat → Nat → Nat → Except E A × List Nat
  | attempt, remaining, delay =>
    match f attempt with
    | .ok a => (.ok a, [])
    | .error e =>
      match remaining with
      | 0 => (.error e, [])
      | r + 1 =>
        let rest := retryAux f (attempt + 1) r (2 * delay)
        (rest.1, delay :: rest.2)

/-- retryRequest(requestFn, maxRetries = 3, delay = 1000): runs requestFn up
to maxRetries times starting at attempt 1; rethrows the last error when
attempt equals maxRetries. With maxRetries = 0 the JS loop body never runs
and the function returns undefined, modelled as none. -/
def retryRequest {E A : Type} (f : Nat → Except E A) (maxRetries delay : Nat) :
    Option (Except E A × List Nat) :=
  match maxRetries with
  | 0 => none
  | r + 1 => some (retryAux f 1 r delay)

/-! RecommendationsTable.jsx: display sorting and rendering. -/

/-- Ordering the default table state sorts by: sortField starts as
'risk_reward_ratio' and sortDirection as 'desc', and the comparator
(a[field] - b[field]) * multiplier ranks a no later than b exactly when it
is not positive, i.e. when b's ratio is at most a's. -/
def byRatioDesc (a b : SpreadRecommendation) : Prop :=
  b.risk_reward_ratio ≤ a.risk_reward_ratio

instance : DecidableRel byRatioDesc :=
  fun a b => inferInstanceAs (Decidable (b.risk_reward_ratio ≤ a.risk_reward_ratio))

instance : IsTotal SpreadRecommendation byRatioDesc :=
  ⟨fun a b => le_total b.risk_reward_ratio a.risk_reward_ratio⟩

instance : IsTrans SpreadRecommendation byRatioDesc :=
  ⟨fun _ _ _ h1 h2 => le_trans h2 h1⟩

/-- sortedRecommendations in its default state:
[...recommendations].sort(comparator). JS Array.prototype.sort is stable,
so the result is the stable sort of the (copied) list under byRatioDesc;
insertion sort realizes exactly that. -/
def sortedRecommendations (recs : List SpreadRecommendation) :
    List SpreadRecommendation :=
  List.insertionSort byRatioDesc recs

/-- The array store: JS arrays addressed by index, making sharing and
in-place mutation observable. The component's expression first copies the
recommendations array with the spread operator and then sorts the fresh
copy in place, so the operation appends a new array holding the sorted
contents and returns its address, touching no existing array. -/
def sortedRecommendationsOp (σ : List (List SpreadRecommendation)) (i : Nat) :
    List (List SpreadRecommendation) × Nat :=
  (σ ++ [sortedRecommendations (σ.getD i [])], σ.length)

/-- What the RecommendationsTable body renders. -/
inductive TableView
  | loadingView
  | noOpportunities
  | table
deriving DecidableEq, Repr

/-- Render branch of RecommendationsTable: the loading spinner while
loading, the "No spread recommendations found" view for a missing or empty
list, else the table. -/
def renderTable (loading : Bool) (recs : List SpreadRecommendation) : TableView :=
  if loading then .loadingView
  else if recs.isEmpty then .noOpportunities
  else .table

/-- fetchRecommendations in the staged App component: awaits the HTTP call
and stores the parsed list; the catch block stores the empty list on any
failure (the error is only logged). The argument is the outcome of the
fetch, the result the recommendations state it leaves behind. -/
def recommendationsAfterFetch (result : Except String (List SpreadRecommendation)) :
    List SpreadRecommendation :=
  match result with
  | .ok recs => recs
  | .error _ => []

/-! Spread Analyzer, modelled from the spec (backend/spreads.py is not
among the staged sources). -/

/-- Modelled from the spec: ATM identification, spec section 4.4 step 1:
atm = round(current_price / strike_interval) * strike_interval. Mathlib's
round sends exact halves up, one of the consistent rules the spec allows. -/
def atmStrike (currentPrice strikeInterval : ℚ) : ℚ :=
  (round (currentPrice / strikeInterval) : ℚ) * strikeInterval

/-- Modelled from the spec: the strike window of spec section 4.4 step 2,
n strike-interval multiples each side of the ATM strike, ATM included. -/
def specStrikeWindow (atm strikeInterval : ℚ) (n : Nat) : List ℚ :=
  (List.range (2 * n + 1)).map fun k : Nat =>
    atm + ((k : ℚ) - (n : ℚ)) * strikeInterval

/-- Modelled from the spec: steps 3 to 5 of spec section 4.4 for one
buy/sell pair. The pair is accepted only when the delta-difference
magnitude lies in the closed band [0.15, 0.26], the spread is a debit
(positive net premium) and the max loss is positive; the accepted pair is
turned into a SpreadRecommendation with the risk metrics of step 5 (the
probability_profit heuristic is the placeholder the spec leaves open,
monotone toward the band midpoint). -/
def buildSpread (kind : SpreadKind) (buy sell : OptionContract) (lotSize : ℚ) :
    Option SpreadRecommendation :=
  let dd := |buy.delta - sell.delta|
  let net := buy.premium - sell.premium
  let maxProfit := (|sell.strike - buy.strike| - net) * lotSize
  let maxLoss := net * lotSize
  if 15 / 100 ≤ dd ∧ dd ≤ 26 / 100 ∧ 0 < net ∧ 0 < maxLoss then
    some { kind := kind
           buy_strike := buy.strike
           sell_strike := sell.strike
           buy_premium := buy.premium
           sell_premium := sell.premium
           buy_delta := buy.delta
           sell_delta := sell.delta
           delta_difference := dd
           net_premium := net
           max_profit := maxProfit
           max_loss := maxLoss
           breakeven := if kind = SpreadKind.bullCall then buy.strike + net
                        else buy.strike - net
           profit_per_100_up := (buy.delta - sell.delta) * 100 * lotSize
           profit_per_100_down := -((buy.delta - sell.delta) * 100 * lotSize)
           risk_reward_ratio := maxProfit / maxLoss
           total_volume := buy.volume + sell.volume
           probability_profit := 100 * (1 - |dd - 1 / 5|) }
  else none

/-- Modelled from the spec: the composite ranking key of spec section 4.4
step 6 — risk-reward ratio descending, then combined volume descending,
then distance of the delta difference from 0.20 ascending. -/
def rankBefore (a b : SpreadRecommendation) : Prop :=
  b.risk_reward_ratio < a.risk_reward_ratio ∨
    (a.risk_reward_ratio = b.risk_reward_ratio ∧
      (b.total_volume < a.total_volume ∨
        (a.total_volume = b.total_volume ∧
          |a.delta_difference - 1 / 5| ≤ |b.delta_difference - 1 / 5|)))

instance : DecidableRel rankBefore := fun a b => by
  unfold rankBefore
  infer_instance

/-- Modelled from the spec: all spreads of one kind — the ATM buy leg, when
present, paired with every qualifying OTM sell leg, keeping the accepted
pairs. -/
def spreadsFor (kind : SpreadKind) (buyLeg : Option OptionContract)
    (sells : List OptionContract) (lotSize : ℚ) : List SpreadRecommendation :=
  match buyLeg with
  | none => []
  | some buy => sells.filterMap fun sell => buildSpread kind buy sell lotSize

/-- Modelled from the spec: analyze of spec section 4.4 — identify the ATM
strike, pair the ATM call with each higher-strike call in the window and
the ATM put with each lower-strike put in the window, build the accepted
spreads, rank them, return the top limit. -/
def analyze (contracts : List OptionContract) (currentPrice lotSize strikeInterval : ℚ)
    (strikesRange limit : Nat) : List SpreadRecommendation :=
  let atm := atmStrike currentPrice strikeInterval
  let bulls := spreadsFor SpreadKind.bullCall
    (contracts.find? fun c => decide (c.side = OptionSide.call ∧ c.strike = atm))
    (contracts.filter fun c => decide (c.side = OptionSide.call ∧ atm < c.strike ∧
      c.strike ≤ atm + (strikesRange : ℚ) * strikeInterval)) lotSize
  let bears := spreadsFor SpreadKind.bearPut
    (contracts.find? fun c => decide (c.side = OptionSide.put ∧ c.strike = atm))
    (contracts.filter fun c => decide (c.side = OptionSide.put ∧ c.strike < atm ∧
      atm - (strikesRange : ℚ) * strikeInterval ≤ c.strike)) lotSize
  (List.insertionSort rankBefore (bulls ++ bears)).take limit

/-! Session Manager, modelled from the spec (backend/angel_api.py is not
among the staged sources). -/

/-- Modelled from the spec: where one caller of ensure_valid_session()
stands — about to check the session, waiting on the single in-flight
refresh, or finished with a valid session. -/
inductive CallerPhase
  | ready
  | waiting
  | done
deriving DecidableEq, Repr

/-- Modelled from the spec: the shared session-manager state — whether the
current session is valid, whether a login/refresh is in flight, how many
login calls have reached the upstream provider, and each caller's phase. -/
structure SessionState where
  sessionValid : Bool
  loginInFlight : Bool
  loginCount : Nat
  callers : List CallerPhase
deriving DecidableEq, Repr

/-- Modelled from the spec: the start state of the single-login scenario —
the session is expired, no refresh is in flight, no login has happened, and
n concurrent callers are about to call ensure_valid_session(). -/
def initialSessionState (n : Nat) : SessionState :=
  { sessionValid := false
    loginInFlight := false
    loginCount := 0
    callers := List.replicate n CallerPhase.ready }

/-- Modelled from the spec: one interleaved step of the session manager.
A ready caller seeing a valid session finishes; a ready caller seeing an
expired session with no refresh in flight takes the mutual-exclusion region
and issues the one login; a ready caller seeing a refresh already in flight
joins it as a waiter instead of logging in; the in-flight login completes,
validating the session; a waiter seeing the refreshed session finishes. -/
inductive SessionStep : SessionState → SessionState → Prop
  | fastPath (s : SessionState) (i : Nat)
      (hi : s.callers.get? i = some CallerPhase.ready)
      (hv : s.sessionValid = true) :
      SessionStep s { s with callers := s.callers.set i CallerPhase.done }
  | startLogin (s : SessionState) (i : Nat)
      (hi : s.callers.get? i = some CallerPhase.ready)
      (hv : s.sessionValid = false) (hf : s.loginInFlight = false) :
      SessionStep s { s with loginInFlight := true
                             loginCount := s.loginCount + 1
                             callers := s.callers.set i CallerPhase.waiting }
  | joinLogin (s : SessionState) (i : Nat)
      (hi : s.callers.get? i = some CallerPhase.ready)
      (hv : s.sessionValid = false) (hf : s.loginInFlight = true) :
      SessionStep s { s with callers := s.callers.set i CallerPhase.waiting }
  | completeLogin (s : SessionState) (hf : s.loginInFlight = true) :
      SessionStep s { s with sessionValid := true, loginInFlight := false }
  | observeRefreshed (s : SessionState) (i : Nat)
      (hi : s.callers.get? i = some CallerPhase.waiting)
      (hv : s.sessionValid = true) :
      SessionStep s { s with callers := s.callers.set i CallerPhase.done }

/-- States the session manager can reach from the expired start state with
n concurrent callers. -/
inductive SessionReachable (n : Nat) : SessionState → Prop
  | init : SessionReachable n (initialSessionState n)
  | step {s t : SessionState} :
      SessionReachable n s → SessionStep s t → SessionReachable n t

/-- Invariant of the single-flight refresh: the caller count is stable, the
login counter is 0 before the first login starts and 1 from the moment a
login is in flight or a session is valid, and a finished caller certifies
the session became valid. -/
def SessionInv (n : Nat) (s : SessionState) : Prop :=
  s.callers.length = n ∧
    (s.sessionValid = false → s.loginInFlight = false → s.loginCount = 0) ∧
    (s.sessionValid = true ∨ s.loginInFlight = true → s.loginCount = 1) ∧
    ∀ p ∈ s.callers, p = CallerPhase.done → s.sessionValid = true

/-! Concrete data for counterexamples and witnesses. -/

/-- A recommendation with the given ratio, volume and delta difference and
zeroed remaining fields; enough for the display-sorting statements. -/
def mkRec (ratio volume dd : ℚ) : SpreadRecommendation :=
  { kind := SpreadKind.bullCall
    buy_strike := 0
    sell_strike := 0
    buy_premium := 0
    sell_premium := 0
    buy_delta := 0
    sell_delta := 0
    delta_difference := dd
    net_premium := 0
    max_profit := 0
    max_loss := 0
    breakeven := 0
    profit_per_100_up := 0
    profit_per_100_down := 0
    risk_reward_ratio := ratio
    total_volume := volume
    probability_profit := 0 }

/-- The spec's worked scenario chain: the ATM call at 24000 with delta 0.62
and the OTM call at 24300 with delta 0.40, nearest-expiry NIFTY style. -/
def witnessChain : List OptionContract :=
  [⟨24000, OptionSide.call, 150, 62 / 100, 100⟩,
   ⟨24300, OptionSide.call, 60, 40 / 100, 200⟩]

/-- The bull call spread the analyzer builds from witnessChain at price
24000, lot size 75, strike interval 50. -/
def witnessSpread : SpreadRecommendation :=
  { kind := SpreadKind.bullCall
    buy_strike := 24000
    sell_strike := 24300
    buy_premium := 150
    sell_premium := 60
    buy_delta := 62 / 100
    sell_delta := 40 / 100
    delta_difference := 22 / 100
    net_premium := 90
    max_profit := 15750
    max_loss := 6750
    breakeven := 24090
    profit_per_100_up := 1650
    profit_per_100_down := -1650
    risk_reward_ratio := 7 / 3
    total_volume := 300
    probability_profit := 98 }

/-- Request function that is rate limited on the first two attempts and
succeeds on the third. -/
def rateLimitedTwice : Nat → Except String Nat :=
  fun attempt => if attempt < 3 then Except.error "rate limited" else Except.ok 42

/-- Helper: when every attempt fails, the retry loop performs exactly the
remaining attempts, waits once per non-final attempt with the delay
doubling each round, and ends with the last attempt's error. -/
theorem retryAux_all_fail {E A : Type} (errs : Nat → E) :
    ∀ remaining attempt delay : Nat,
      retryAux (A := A) (fun i => Except.error (errs i)) attempt remaining delay =
        (Except.error (errs (attempt + remaining)),
          (List.range remaining).map fun k => 2 ^ k * delay) := by
  intro remaining
  induction remaining with
  | zero =>
    intro attempt delay
    simp [retryAux]
  | succ r ih =>
    intro attempt delay
    have harg : attempt + 1 + r = attempt + (r + 1) := by omega
    have hmap : (List.range (r + 1)).map (fun k => 2 ^ k * delay) =
        delay :: (List.range r).map fun k => 2 ^ k * (2 * delay) := by
      rw [List.range_succ_eq_map, List.map_cons, List.map_map]
      refine congrArg₂ List.cons (by simp) (List.map_congr_left fun k _ => ?_)
      simp only [Function.comp_apply, pow_succ]
      ring
    simp only [retryAux, ih (attempt + 1) (2 * delay), harg, hmap]

/-- C4: a request function failing with a rate-limit-class error on the
first two attempts and succeeding on the third makes retryRequest (at its
default maxRetries = 3) return the successful result — after waiting the
base delay and then its double — instead of surfacing an error. -/
theorem retryRequest_success_on_third_attempt {E A : Type} (f : Nat → Except E A)
    (delay : Nat) (a : A) (e1 e2 : E)
    (h1 : f 1 = Except.error e1) (h2 : f 2 = Except.error e2)
    (h3 : f 3 = Except.ok a) :
    retryRequest f 3 delay = some (Except.ok a, [delay, 2 * delay]) := by
  simp [retryRequest, retryAux, h1, h2, h3]

/-- Witness for C4: the concrete rate-limited-twice request function
succeeds through the retry wrapper with waits 1000 and 2000. -/
theorem retryRequest_success_on_third_attempt_witness :
    retryRequest rateLimitedTwice 3 1000 = some (Except.ok 42, [1000, 2000]) :=
  retryRequest_success_on_third_attempt rateLimitedTwice 1000 42
    "rate limited" "rate limited" rfl rfl rfl

/-- C5: when the underlying call fails on every attempt with the
network/transport error the response interceptor raises for a request that
got no response, retryRequest performs exactly maxRetries attempts —
waiting between them with the delay doubling each round — and then
surfaces that transient error to the caller; it never retries beyond the
bound. -/
theorem retryRequest_bounded_retries_network_error {A : Type} (r delay : Nat) :
    retryRequest (A := A)
        (fun _ => Except.error (interceptError AxiosFailure.request))
        (r + 1) delay =
      some (Except.error "Network error: Unable to connect to server",
        (List.range r).map fun k => 2 ^ k * delay) := by
  have h := retryAux_all_fail (A := A)
    (fun _ => interceptError AxiosFailure.request) r 1 delay
  simp only [interceptError] at h
  simp only [retryRequest, interceptError]
  rw [h]

/-- C6: a recommendations request built without a strikes-range argument
carries the default strikes_range = 6, and the spec's strike window of 6
strikes each side of the ATM strike holds 13 strikes in total, the ATM
strike included. -/
theorem fetchRecommendations_default_strikes_range (s : Option String)
    (atm interval : ℚ) :
    (fetchRecommendationsRequest s none).strikes_range = 6 ∧
      (specStrikeWindow atm interval 6).length = 13 := by
  constructor
  · rfl
  · rw [specStrikeWindow, List.length_map, List.length_range]

/-- C10: the service layer uppercases the symbol in the outgoing
recommendations request, quick-recommendations URL and chart-data
parameters, so the lowercase input "nifty" produces exactly the requests
"NIFTY" produces. -/
theorem outgoing_symbol_uppercased (s : String) (r : Option Nat)
    (v f t : Option String) :
    (fetchRecommendationsRequest (some s) r).symbol = jsToUpperCase s ∧
      fetchQuickRecommendationsUrl (some s) =
        "/api/recommendations/" ++ jsToUpperCase s ∧
      (fetchChartDataParams (some s) v f t).symbol = jsToUpperCase s ∧
      fetchRecommendationsRequest (some "nifty") r =
        fetchRecommendationsRequest (some "NIFTY") r ∧
      fetchQuickRecommendationsUrl (some "nifty") =
        fetchQuickRecommendationsUrl (some "NIFTY") ∧
      fetchChartDataParams (some "nifty") v f t =
        fetchChartDataParams (some "NIFTY") v f t := by
  have hup : jsToUpperCase "nifty" = jsToUpperCase "NIFTY" := by decide
  exact ⟨rfl, rfl, rfl,
    by simp [fetchRecommendationsRequest, hup],
    by simp [fetchQuickRecommendationsUrl, hup],
    by simp [fetchChartDataParams, hup]⟩

/-- Counterexample to C3 as stated: a failed fetch is represented by the
same empty recommendations state as a successful fetch that found no
opportunities, so the caller cannot tell the two apart from that value. -/
theorem fetch_failure_represented_as_empty_list :
    recommendationsAfterFetch (Except.error "HTTP error! status: 500") =
      recommendationsAfterFetch (Except.ok []) := rfl

/-- C3 as amended: an empty recommendation list is a valid, non-error
outcome, rendered as the no-opportunities view rather than an error view;
however the App's fetchRecommendations maps a failed fetch to the empty
list as well, so that failure renders identically to no opportunities. -/
theorem empty_result_valid_but_indistinguishable (e : String)
    (recs : List SpreadRecommendation) :
    recommendationsAfterFetch (Except.ok recs) = recs ∧
      renderTable false (recommendationsAfterFetch (Except.ok [])) =
        TableView.noOpportunities ∧
      recommendationsAfterFetch (Except.error e) = [] ∧
      renderTable false (recommendationsAfterFetch (Except.error e)) =
        TableView.noOpportunities :=
  ⟨rfl, rfl, rfl, rfl⟩

/-- Counterexample to C2 as stated: two recommendations with equal
risk-reward ratio and different combined volumes come out of the display
sort in input order, lower volume first — not higher-volume first as the
claimed tie-break requires. -/
theorem sortedRecommendations_ignores_volume_tiebreak :
    sortedRecommendations [mkRec 2 100 0, mkRec 2 200 0] =
        [mkRec 2 100 0, mkRec 2 200 0] ∧
      (mkRec 2 100 0).risk_reward_ratio = (mkRec 2 200 0).risk_reward_ratio ∧
      (mkRec 2 100 0).total_volume < (mkRec 2 200 0).total_volume := by
  decide

/-- C2 as amended: the display sort orders by the selected field only — by
default risk-reward ratio descending — and is stable: the output is sorted
by that key, is a permutation of the input, and an input already in
key order (in particular, any run of equal ratios) is returned unchanged,
with no volume or delta-difference tie-break. -/
theorem sortedRecommendations_by_ratio_stable (recs : List SpreadRecommendation) :
    (sortedRecommendations recs).Sorted byRatioDesc ∧
      (sortedRecommendations recs).Perm recs ∧
      (recs.Sorted byRatioDesc → sortedRecommendations recs = recs) :=
  ⟨List.sorted_insertionSort byRatioDesc recs,
    List.perm_insertionSort byRatioDesc recs,
    fun h => h.insertionSort_eq⟩

/-- Witness for C2 as amended: a concrete ratio-descending list (with a tie
broken only by input order) is left unchanged by the display sort. -/
theorem sortedRecommendations_by_ratio_stable_witness :
    sortedRecommendations [mkRec 3 0 0, mkRec 2 5 0, mkRec 2 1 0] =
      [mkRec 3 0 0, mkRec 2 5 0, mkRec 2 1 0] :=
  (sortedRecommendations_by_ratio_stable [mkRec 3 0 0, mkRec 2 5 0, mkRec 2 1 0]).2.2
    (by decide)

/-- C9: the display sort never mutates recommendations. In the array store,
sorting for display leaves every existing array — in particular the input
recommendations array — exactly as it was, and the freshly allocated sorted
array is a permutation of the input array's recommendation objects, so the
objects themselves are the unchanged originals. -/
theorem sortedRecommendationsOp_frame (σ : List (List SpreadRecommendation))
    (i : Nat) :
    (∀ k, k < σ.length →
        (sortedRecommendationsOp σ i).1.getD k [] = σ.getD k []) ∧
      ((sortedRecommendationsOp σ i).1.getD (sortedRecommendationsOp σ i).2 []).Perm
        (σ.getD i []) := by
  constructor
  · intro k hk
    simp [sortedRecommendationsOp, List.getD_eq_getElem?_getD,
      List.getElem?_append_left hk]
  · have hlast : (σ ++ [List.insertionSort byRatioDesc (σ[i]?.getD [])])[σ.length]? =
        some (List.insertionSort byRatioDesc (σ[i]?.getD [])) :=
      List.getElem?_concat_length _ _
    simp only [sortedRecommendationsOp, sortedRecommendations,
      List.getD_eq_getElem?_getD, hlast, Option.getD_some]
    exact List.perm_insertionSort byRatioDesc _

/-- Witness for C9: for a concrete one-array store, the original array
still holds its recommendation after the display-sort operation. -/
theorem sortedRecommendationsOp_frame_witness :
    (sortedRecommendationsOp [[mkRec 2 100 0]] 0).1.getD 0 [] =
      [[mkRec 2 100 0]].getD 0 [] :=
  (sortedRecommendationsOp_frame [[mkRec 2 100 0]] 0).1 0 (by decide)

/-- Helper: a pair buildSpread accepts carries a delta difference inside the
closed acceptance band [0.15, 0.26]. -/
theorem buildSpread_band {kind : SpreadKind} {buy sell : OptionContract}
    {lotSize : ℚ} {r : SpreadRecommendation}
    (h : buildSpread kind buy sell lotSize = some r) :
    15 / 100 ≤ r.delta_difference ∧ r.delta_difference ≤ 26 / 100 := by
  simp only [buildSpread] at h
  split at h
  · rename_i hc
    cases h
    exact ⟨hc.1, hc.2.1⟩
  · exact absurd h (by simp)

/-- Helper: every spread spreadsFor produces comes from an accepted
buildSpread pair, so its delta difference lies in the band. -/
theorem spreadsFor_band {kind : SpreadKind} {buyLeg : Option OptionContract}
    {sells : List OptionContract} {lotSize : ℚ} {r : SpreadRecommendation}
    (h : r ∈ spreadsFor kind buyLeg sells lotSize) :
    15 / 100 ≤ r.delta_difference ∧ r.delta_difference ≤ 26 / 100 := by
  cases buyLeg with
  | none => simp [spreadsFor] at h
  | some buy =>
    simp only [spreadsFor, List.mem_filterMap] at h
    obtain ⟨sell, _, hb⟩ := h
    exact buildSpread_band hb

/-- C1: every SpreadRecommendation an analysis run produces has its
delta_difference in the closed band [0.15, 0.26]; a candidate pair outside
the band is rejected by buildSpread and therefore absent from the ranked
output. -/
theorem analyze_delta_difference_in_band (contracts : List OptionContract)
    (currentPrice lotSize strikeInterval : ℚ) (strikesRange limit : Nat)
    (r : SpreadRecommendation)
    (hr : r ∈ analyze contracts currentPrice lotSize strikeInterval strikesRange limit) :
    15 / 100 ≤ r.delta_difference ∧ r.delta_difference ≤ 26 / 100 := by
  simp only [analyze] at hr
  have h1 := List.mem_of_mem_take hr
  have h2 := (List.perm_insertionSort rankBefore _).subset h1
  rcases List.mem_append.mp h2 with hmem | hmem
  · exact spreadsFor_band hmem
  · exact spreadsFor_band hmem

/-- Witness for C1: on the spec's worked scenario (NIFTY at 24000, strike
interval 50, lot 75, deltas 0.62 and 0.40) the analyzer produces the bull
call spread with delta difference 0.22, and that difference is in band. -/
theorem analyze_delta_difference_in_band_witness :
    witnessSpread ∈ analyze witnessChain 24000 75 50 6 5 ∧
      15 / 100 ≤ witnessSpread.delta_difference ∧
      witnessSpread.delta_difference ≤ 26 / 100 := by
  have hatm : atmStrike 24000 50 = 24000 := by
    rw [atmStrike]
    norm_num [round_eq]
  have habs1 : |(11 : ℚ) / 50| = 11 / 50 := abs_of_nonneg (by norm_num)
  have habs2 : |(11 : ℚ) / 50 - 1 / 5| = 1 / 50 := by
    rw [show (11 : ℚ) / 50 - 1 / 5 = 1 / 50 by norm_num]
    exact abs_of_nonneg (by norm_num)
  have habs3 : |(1 : ℚ) / 50| = 1 / 50 := abs_of_nonneg (by norm_num)
  have hcp : decide (OptionSide.call = OptionSide.put) = false := rfl
  have hmem : witnessSpread ∈ analyze witnessChain 24000 75 50 6 5 := by
    norm_num [analyze, hatm, witnessChain, List.find?, List.filter, spreadsFor,
      List.filterMap, buildSpread, List.insertionSort, List.orderedInsert,
      witnessSpread, habs1, habs2, habs3, hcp]
  exact ⟨hmem, analyze_delta_difference_in_band witnessChain 24000 75 50 6 5
    witnessSpread hmem⟩

/-- C7: for every price and positive strike interval, the ATM strike is
round(current_price / strike_interval) * strike_interval — an integer
multiple of the strike interval, and among all such multiples the nearest
one to the supplied price. -/
theorem atmStrike_nearest_multiple (price interval : ℚ) (h : 0 < interval) :
    (∃ k : ℤ, atmStrike price interval = (k : ℚ) * interval) ∧
      ∀ k : ℤ, |price - atmStrike price interval| ≤ |price - (k : ℚ) * interval| := by
  have hne : interval ≠ 0 := ne_of_gt h
  constructor
  · exact ⟨round (price / interval), rfl⟩
  · intro k
    have key : ∀ z : ℤ, price - (z : ℚ) * interval =
        (price / interval - (z : ℚ)) * interval := by
      intro z
      rw [sub_mul, div_mul_cancel₀ price hne]
    rw [atmStrike, key (round (price / interval)), key k, abs_mul, abs_mul]
    exact mul_le_mul_of_nonneg_right (round_le (price / interval) k) (abs_nonneg _)

/-- Witness for C7: at price 24000 and interval 50 the ATM strike (24000)
is at least as close to the price as the neighbouring multiple 479 * 50. -/
theorem atmStrike_nearest_multiple_witness :
    (0 : ℚ) < 50 ∧
      |(24000 : ℚ) - atmStrike 24000 50| ≤
        |(24000 : ℚ) - ((479 : ℤ) : ℚ) * 50| :=
  ⟨by norm_num, (atmStrike_nearest_multiple 24000 50 (by norm_num)).2 479⟩

/-- Helper: the start state satisfies the single-flight invariant. -/
theorem sessionInv_init (n : Nat) : SessionInv n (initialSessionState n) := by
  refine ⟨List.length_replicate n _, fun _ _ => rfl, ?_, ?_⟩
  · rintro (h | h) <;> cases h
  · intro p hp hdone
    have := List.eq_of_mem_replicate hp
    subst this
    cases hdone

/-- Helper: each session-manager step preserves the single-flight
invariant. -/
theorem sessionInv_step {n : Nat} {s t : SessionState}
    (hs : SessionInv n s) (hst : SessionStep s t) : SessionInv n t := by
  obtain ⟨hlen, hzero, hone, hdone⟩ := hs
  cases hst with
  | fastPath i hi hv =>
    refine ⟨by simpa using hlen, hzero, hone, ?_⟩
    intro p hp hpd
    rcases List.mem_or_eq_of_mem_set hp with hmem | rfl
    · exact hdone p hmem hpd
    · exact hv
  | startLogin i hi hv hf =>
    refine ⟨by simpa using hlen, ?_, ?_, ?_⟩
    · intro _ hf'
      exact Bool.noConfusion hf'
    · intro _
      have h0 : s.loginCount = 0 := hzero hv hf
      show s.loginCount + 1 = 1
      omega
    · intro p hp hpd
      rcases List.mem_or_eq_of_mem_set hp with hmem | rfl
      · exact absurd (hdone p hmem hpd) (by simp [hv])
      · cases hpd
  | joinLogin i hi hv hf =>
    refine ⟨by simpa using hlen, hzero, hone, ?_⟩
    intro p hp hpd
    rcases List.mem_or_eq_of_mem_set hp with hmem | rfl
    · exact absurd (hdone p hmem hpd) (by simp [hv])
    · cases hpd
  | completeLogin hf =>
    refine ⟨hlen, ?_, ?_, fun p _ _ => rfl⟩
    · intro hv' _
      exact Bool.noConfusion hv'
    · intro _
      exact hone (Or.inr hf)
  | observeRefreshed i hi hv =>
    refine ⟨by simpa using hlen, hzero, hone, ?_⟩
    intro p hp hpd
    rcases List.mem_or_eq_of_mem_set hp with hmem | rfl
    · exact hdone p hmem hpd
    · exact hv

/-- Helper: the single-flight invariant holds in every reachable state. -/
theorem sessionInv_reachable {n : Nat} {s : SessionState}
    (h : SessionReachable n s) : SessionInv n s := by
  induction h with
  | init => exact sessionInv_init n
  | step _ hst ih => exact sessionInv_step ih hst

/-- C8: with n concurrent callers of ensure_valid_session() starting from
an expired session, every reachable state in which all callers have
finished records exactly one login call to the upstream provider: the
single-flight refresh serialized the concurrent callers onto one login and
every waiter observed the session it produced. -/
theorem ensure_valid_session_single_login (n : Nat) (s : SessionState)
    (hn : 0 < n) (hs : SessionReachable n s)
    (hall : ∀ p ∈ s.callers, p = CallerPhase.done) :
    s.loginCount = 1 := by
  obtain ⟨hlen, hzero, hone, hdone⟩ := sessionInv_reachable hs
  have hne : s.callers ≠ [] := by
    intro hnil
    rw [hnil] at hlen
    simp at hlen
    omega
  obtain ⟨p, hp⟩ := List.exists_mem_of_ne_nil s.callers hne
  have hv : s.sessionValid = true := hdone p hp (hall p hp)
  exact hone (Or.inl hv)

/-- Witness for C8: one caller runs the scenario to completion — start the
login, complete it, observe the refreshed session — and the final state
records exactly one login. -/
theorem ensure_valid_session_single_login_witness :
    0 < 1 ∧ SessionState.loginCount
      { sessionValid := true, loginInFlight := false, loginCount := 1,
        callers := [CallerPhase.done] } = 1 :=
  ⟨Nat.one_pos,
    ensure_valid_session_single_login 1 _ Nat.one_pos
      (SessionReachable.step
        (SessionReachable.step
          (SessionReachable.step SessionReachable.init
            (SessionStep.startLogin _ 0 rfl rfl rfl))
          (SessionStep.completeLogin _ rfl))
        (SessionStep.observeRefreshed _ 0 rfl rfl))
      (by decide)⟩

end DeltaDeck
